import Mathlib

/-!
Shallow embedding of the interview workflow coordinator of the
Interview-Practice-Partner repository.

The embedded code:
  * `src/backend/src/types/interview.types.ts` — the data model;
  * `src/backend/src/agents/orchestratorAgent.ts` — the orchestrator
    (decision engine), the analyzer (in the same staged file) with
    `createFallbackAnalysis` and `updateAnalytics`, and the interviewer
    with `createFallbackQuestion` and `generateOpeningQuestion`;
  * `src/backend/src/services/agentWorkflow.ts` — the workflow coordinator
    (`initializeInterviewSession`, `processUserResponse`,
    `endInterviewSession`, `generateInterviewFeedback`);
  * `src/unnamed/part_009` — the feedback agent (`runFeedbackAgent`,
    `createFallbackFeedback`);
  * `src/backend/src/controllers/feedbackController.ts` — `generateFeedback`.

Modelling conventions.  JavaScript numbers are embedded as `ℚ` (scores,
averages) or `Nat`/`ℤ` (counts, timestamps, durations); `Math.round` is
`jsRound`; the JavaScript `x || d` defaulting on a possibly-missing number
(which also replaces a stored `0`) is `jsOrDefault`; `answer.split(/\s+/).length`
is `jsWordCount`.  Each language-model call is an oracle argument: `none`
stands for a call that failed or returned unparseable output (the path that
the source handles in a `catch`), `some v` for a call that succeeded with
parsed value `v`.  A `throws` flag stands for an exception raised outside the
agent's own try/catch (for example by the model-client constructor), which
the workflow-level `catch` in `processUserResponse` absorbs.  Wall-clock
reads (`Date.now()`) are the oracle's `now`; the ISO `generatedAt` timestamp
of a feedback report is modelled as the empty string, no claim concerns it.
-/

namespace IPP

/-- Message kind in the conversation history (`MessageType`). -/
inductive MsgType where
  | question
  | answer
  | system
deriving DecidableEq

/-- Author of a history entry (`MessageFrom`; the source field is `from`,
a Lean keyword, embedded as `sender`). -/
inductive MessageFrom where
  | user
  | agent
  | system
deriving DecidableEq

/-- One entry of a session's history (`ConversationMessage`). -/
structure ConversationMessage where
  type : MsgType
  sender : MessageFrom
  content : String
  timestamp : Nat
deriving DecidableEq

/-- Cumulative per-session analytics (`InterviewAnalytics`); the optional
fields are absent on a fresh session. -/
structure InterviewAnalytics where
  isChatty : Bool
  isTooShort : Bool
  isOffTopic : Option Bool
  avgAnswerLength : ℚ
  communicationScore : Option ℚ
  technicalScore : Option ℚ
  behavioralScore : Option ℚ
  confidenceScore : Option ℚ
  engagementScore : Option ℚ
  notes : List String
deriving DecidableEq

/-- Interview phase (`InterviewPhase`, the `status` field of the state). -/
inductive InterviewPhase where
  | not_started
  | opening
  | main
  | closing
  | ended
deriving DecidableEq

/-- Per-session state (`InterviewState`); `role`, `seniority` and
`interactionMode` are string enums in the source and plain strings here;
the unused free-form `metadata` record is omitted. -/
structure InterviewState where
  sessionId : String
  role : String
  seniority : String
  history : List ConversationMessage
  analytics : InterviewAnalytics
  status : InterviewPhase
  interactionMode : String
  questionCount : Nat
  startTime : Nat
  endTime : Option Nat
deriving DecidableEq

/-- Analyzer output for a single answer (`AnalyzerResponse`). -/
structure AnalyzerResponse where
  isChatty : Bool
  isTooShort : Bool
  isOffTopic : Bool
  communicationScore : ℚ
  technicalScore : ℚ
  behavioralScore : ℚ
  confidenceScore : ℚ
  engagementScore : ℚ
  notes : String
  strengths : List String
  weaknesses : List String
  suggestions : List String
deriving DecidableEq

/-- Routing target of an orchestrator decision (`NextAgent`; the source
value `end` is a Lean keyword, embedded as `endAgent`). -/
inductive NextAgent where
  | interviewer
  | analyzer
  | feedback
  | endAgent
deriving DecidableEq

/-- Intent of the next step (`NextIntent`). -/
inductive NextIntent where
  | ask_behavioral
  | ask_technical
  | ask_system_design
  | ask_role_specific
  | probe_answer
  | ask_closing
  | end_interview
  | continue_conversation
deriving DecidableEq

/-- Question difficulty (`DifficultyLevel`). -/
inductive DifficultyLevel where
  | easy
  | medium
  | hard
deriving DecidableEq

/-- Metadata of an orchestrator decision (all fields optional in the source). -/
structure OrchestratorMetadata where
  difficulty : Option DifficultyLevel
  focusAreas : Option (List String)
  provideHint : Option Bool
  reasoning : Option String
deriving DecidableEq

/-- Orchestrator (decision-engine) output (`OrchestratorResponse`). -/
structure OrchestratorResponse where
  nextAgent : NextAgent
  nextIntent : NextIntent
  metadata : OrchestratorMetadata
  shouldEnd : Bool
deriving DecidableEq

/-- Metadata of an interviewer question. -/
structure InterviewerMetadata where
  expectedLength : Option String
  keyPoints : Option (List String)
deriving DecidableEq

/-- Interviewer (question-generator) output (`InterviewerResponse`). -/
structure InterviewerResponse where
  message : String
  questionType : NextIntent
  metadata : Option InterviewerMetadata
deriving DecidableEq

/-- Hiring recommendation of a feedback report. -/
inductive Recommendation where
  | STRONG_HIRE
  | HIRE
  | MAYBE
  | NO_HIRE
deriving DecidableEq

/-- Per-category score breakdown of a feedback report. -/
structure FeedbackScores where
  communication : ℚ
  technicalKnowledge : ℚ
  problemSolving : ℚ
  confidence : ℚ
  relevance : ℚ
deriving DecidableEq

/-- Feedback (evaluation-generator) output (`FeedbackResponse`);
the optional `modelAnswers` field, never produced by the source, is omitted. -/
structure FeedbackResponse where
  sessionId : String
  role : String
  duration : String
  questionCount : Nat
  overallScore : ℚ
  scores : FeedbackScores
  strengths : List String
  improvements : List String
  highlights : List String
  redFlags : List String
  overallFeedback : String
  recommendation : Recommendation
  generatedAt : String
deriving DecidableEq

/-- Characters the JavaScript regex `\s` matches within ASCII. -/
def jsIsSpace (c : Char) : Bool :=
  c = ' ' || c = '\t' || c = '\n' || c = '\r' || c = '\x0b' || c = '\x0c'

/-- Number of maximal whitespace runs in a character list; the flag records
whether the previous character was whitespace. -/
def wsRunsAux : Bool → List Char → Nat
  | _, [] => 0
  | prevWs, c :: rest =>
    if jsIsSpace c then (if prevWs then 0 else 1) + wsRunsAux true rest
    else wsRunsAux false rest

/-- Length of `s.split(/\s+/)` in JavaScript: one more than the number of
maximal whitespace runs (a leading or trailing run contributes an empty
field, exactly as the regex split does). -/
def jsWordCount (s : String) : Nat := wsRunsAux false s.data + 1

/-- `Math.round`: round half toward positive infinity. -/
def jsRound (q : ℚ) : ℤ := ⌊q + 1 / 2⌋

/-- The JavaScript expression `x || d` on a possibly-undefined number `x`:
an absent value and a stored `0` both fall back to `d`. -/
def jsOrDefault (x : Option ℚ) (d : ℚ) : ℚ :=
  match x with
  | none => d
  | some v => if v = 0 then d else v

/-- The candidate-authored entries of a history
(`history.filter(msg => msg.from === 'user')`). -/
def userMessages (h : List ConversationMessage) : List ConversationMessage :=
  h.filter fun m => m.sender == MessageFrom.user

/-- Sum of the content lengths of the candidate-authored entries, in `ℚ`. -/
def userLenSumQ (h : List ConversationMessage) : ℚ :=
  ((userMessages h).map fun m => ((m.content.length : ℚ))).sum

/-- Fallback analysis of the analyzer agent (`createFallbackAnalysis` in the
analyzer source): rule-based heuristics used when the model call fails or
its output does not parse. -/
def createFallbackAnalysis (answer : String) (_state : InterviewState) : AnalyzerResponse :=
  let wordCount := jsWordCount answer
  let charCount := answer.length
  let isChatty := decide (250 < wordCount) || decide (1500 < charCount)
  let isTooShort := decide (wordCount < 50) || decide (charCount < 200)
  let baseScore : ℚ := if isTooShort then 4 else if isChatty then 5 else 6
  { isChatty := isChatty
    isTooShort := isTooShort
    isOffTopic := false
    communicationScore := baseScore
    technicalScore := baseScore
    behavioralScore := baseScore
    confidenceScore := baseScore
    engagementScore := baseScore
    notes :=
      if isTooShort then "Response was quite brief and may lack necessary detail."
      else if isChatty then "Response was verbose and could be more focused."
      else "Response provided with reasonable detail."
    strengths := if isTooShort then [] else ["Provided an answer"]
    weaknesses :=
      if isTooShort then ["Answer too brief", "Missing key details"]
      else if isChatty then ["Answer too verbose", "Could be more concise"]
      else []
    suggestions :=
      if isTooShort then ["Provide more specific examples", "Add more detail to answers"]
      else if isChatty then ["Be more concise", "Focus on key points"]
      else ["Continue with similar level of detail"] }

/-- The analyzer agent (`runAnalyzerAgent`): the model's parsed output when
the call succeeded, `createFallbackAnalysis` when it failed. -/
def runAnalyzerAgent (state : InterviewState) (lastAnswer : String)
    (modelResult : Option AnalyzerResponse) : AnalyzerResponse :=
  match modelResult with
  | some analysis => analysis
  | none => createFallbackAnalysis lastAnswer state

/-- The default analysis built inline by the workflow's `catch` block in
`processUserResponse`, used when `runAnalyzerAgent` itself throws. -/
def workflowDefaultAnalysis (userMessage : String) : AnalyzerResponse :=
  { isChatty := false
    isTooShort := decide (userMessage.length < 200)
    isOffTopic := false
    communicationScore := 5
    technicalScore := 5
    behavioralScore := 5
    confidenceScore := 5
    engagementScore := 5
    notes := "Response received"
    strengths := []
    weaknesses := []
    suggestions := [] }

/-- Merge one turn's analysis into the cumulative analytics
(`updateAnalytics` in the analyzer source).  The running average is the
source's incremental update; `totalAnswers` counts the candidate entries of
the history, which at every call site already contains the answer being
analyzed; the JavaScript `|| 0` defaults are identities here because a
missing average is represented by `0` and a missing last entry by length `0`. -/
def updateAnalytics (state : InterviewState) (analysis : AnalyzerResponse) : InterviewState :=
  let totalAnswers : Nat := (userMessages state.history).length
  let currentAvg : ℚ := state.analytics.avgAnswerLength
  let lastAnswerLength : ℚ :=
    match state.history.getLast? with
    | some m => (m.content.length : ℚ)
    | none => 0
  let newAvg : ℚ := (currentAvg * ((totalAnswers : ℚ) - 1) + lastAnswerLength) / (totalAnswers : ℚ)
  { state with
    analytics := { isChatty := analysis.isChatty
                   isTooShort := analysis.isTooShort
                   isOffTopic := some analysis.isOffTopic
                   avgAnswerLength := newAvg
                   communicationScore := some analysis.communicationScore
                   technicalScore := some analysis.technicalScore
                   behavioralScore := some analysis.behavioralScore
                   confidenceScore := some analysis.confidenceScore
                   engagementScore := some analysis.engagementScore
                   notes := state.analytics.notes ++ [analysis.notes] } }

/-- Fallback decision of the orchestrator agent
(`createFallbackOrchestration`): rule-based orchestration used when the
model call fails or its output does not parse. -/
def createFallbackOrchestration (state : InterviewState) (analysis : AnalyzerResponse) :
    OrchestratorResponse :=
  let questionCount := state.questionCount
  if 8 ≤ questionCount then
    { nextAgent := .feedback
      nextIntent := .end_interview
      metadata := { difficulty := none, focusAreas := none, provideHint := none,
                    reasoning := some "Interview completed with sufficient questions" }
      shouldEnd := true }
  else if analysis.isOffTopic then
    { nextAgent := .interviewer
      nextIntent := .continue_conversation
      metadata := { difficulty := some .medium, focusAreas := some ["Steer back to topic"],
                    provideHint := some false,
                    reasoning := some "Candidate went off-topic, steering back" }
      shouldEnd := false }
  else
    let nextIntent : NextIntent :=
      if questionCount ≤ 2 then .ask_behavioral
      else if questionCount ≤ 5 then .ask_role_specific
      else .ask_closing
    let difficulty : DifficultyLevel :=
      if questionCount ≤ 2 then .easy
      else if questionCount ≤ 5 then (if 7 < analysis.technicalScore then .hard else .medium)
      else .easy
    let focusAreas : List String :=
      (if analysis.isTooShort then ["Ask open-ended questions requiring elaboration"] else [])
        ++ (if analysis.isChatty then ["Ask focused, specific questions"] else [])
        ++ (if analysis.technicalScore < 5 then ["Provide easier technical questions with hints"] else [])
    { nextAgent := .interviewer
      nextIntent := nextIntent
      metadata := { difficulty := some difficulty
                    focusAreas := some (if 0 < focusAreas.length then focusAreas
                                        else ["Continue naturally"])
                    provideHint := some (decide (analysis.technicalScore < 4))
                    reasoning := some ("Question " ++ toString (questionCount + 1)
                      ++ ": Following standard interview progression") }
      shouldEnd := false }

/-- The orchestrator agent (`runOrchestratorAgent`): the model's parsed
decision when the call succeeded, `createFallbackOrchestration` when it
failed. -/
def runOrchestratorAgent (state : InterviewState) (recentAnalysis : AnalyzerResponse)
    (modelResult : Option OrchestratorResponse) : OrchestratorResponse :=
  match modelResult with
  | some decision => decision
  | none => createFallbackOrchestration state recentAnalysis

/-- The default decision built inline by the workflow's `catch` block in
`processUserResponse`, used when `runOrchestratorAgent` itself throws. -/
def workflowFallbackDecision (questionCount : Nat) : OrchestratorResponse :=
  { nextAgent := if 8 ≤ questionCount then .feedback else .interviewer
    nextIntent := if 8 ≤ questionCount then .end_interview else .ask_role_specific
    metadata := { difficulty := some .medium, focusAreas := none, provideHint := none,
                  reasoning := some "Fallback decision due to orchestrator error" }
    shouldEnd := decide (8 ≤ questionCount) }

/-- Fixed question table of the interviewer's fallback
(`createFallbackQuestion`); an intent without a table of its own uses the
behavioral one. -/
def fallbackQuestionTable (role : String) (intent : NextIntent) : List String :=
  match intent with
  | .ask_behavioral =>
      ["Tell me about a time when you faced a significant challenge at work. How did you handle it?",
       "Can you describe a situation where you had to work with a difficult team member?",
       "Tell me about a project you're particularly proud of and why."]
  | .ask_technical =>
      ["What technologies are you most comfortable working with?",
       "Can you explain a complex technical concept in simple terms?",
       "What's your approach to debugging when something goes wrong?"]
  | .ask_role_specific =>
      ["What interests you most about working in " ++ role ++ "?",
       "What do you think are the most important skills for a " ++ role ++ "?"]
  | .ask_closing =>
      ["That's great, thank you. Do you have any questions for me?",
       "We're coming to the end of our time. Is there anything else you'd like to share?"]
  | _ =>
      ["Tell me about a time when you faced a significant challenge at work. How did you handle it?",
       "Can you describe a situation where you had to work with a difficult team member?",
       "Tell me about a project you're particularly proud of and why."]

/-- Fallback question generation (`createFallbackQuestion`): a deterministic
pick from the fixed table, keyed by intent and `questionCount` modulo the
table size (every table is non-empty, so the source's `|| 1` guard on the
length is never taken). -/
def createFallbackQuestion (state : InterviewState) (decision : OrchestratorResponse) :
    InterviewerResponse :=
  let questions := fallbackQuestionTable state.role decision.nextIntent
  let selectedQuestion := questions.get? (state.questionCount % questions.length)
  { message := selectedQuestion.getD "Tell me more about your experience."
    questionType := decision.nextIntent
    metadata := none }

/-- The interviewer agent (`runInterviewerAgent`): the model's trimmed text
when the call succeeded, `createFallbackQuestion` when it failed. -/
def runInterviewerAgent (state : InterviewState) (decision : OrchestratorResponse)
    (modelContent : Option String) : InterviewerResponse :=
  match modelContent with
  | some content =>
      { message := content.trim
        questionType := decision.nextIntent
        metadata := some { expectedLength :=
                             some (if decision.nextIntent == NextIntent.ask_behavioral
                                   then "long" else "medium")
                           keyPoints := decision.metadata.focusAreas } }
  | none => createFallbackQuestion state decision

/-- The three opening greetings of `generateOpeningQuestion`. -/
def openingGreetings (role : String) : List String :=
  ["Hi! I'm Sarah, and I'll be interviewing you today for the " ++ role
     ++ " position. Let's start with - tell me a bit about yourself and your background in "
     ++ role ++ ".",
   "Hello! Thanks for joining me today. I'm Sarah and I'm excited to learn more about you. To get us started, could you walk me through your experience in "
     ++ role ++ "?",
   "Welcome! I'm Sarah, your interviewer today. Let's dive in - tell me about your journey into "
     ++ role ++ " and what you're most passionate about."]

/-- Opening question (`generateOpeningQuestion`); the `Math.random` pick is
the `greetIdx` oracle, with the source's out-of-range fallback chain. -/
def generateOpeningQuestion (role : String) (_seniority : String) (greetIdx : Nat) : String :=
  let greetings := openingGreetings role
  (greetings.get? greetIdx).getD ((greetings.get? 0).getD "")

/-- Oracle for the nondeterministic inputs of one turn: each agent's model
call (`none` = failed or unparseable), a `throws` flag for an exception that
escapes the agent and is absorbed by the workflow-level `catch`, and the
wall clock. -/
structure ModelOracle where
  analyzerThrows : Bool
  analyzerResult : Option AnalyzerResponse
  orchestratorThrows : Bool
  orchestratorResult : Option OrchestratorResponse
  interviewerThrows : Bool
  interviewerResult : Option String
  now : Nat
deriving DecidableEq

/-- What `processUserResponse` returns to the HTTP layer (the analytics
snapshot of the source's return value is a projection of the final state and
is not repeated here). -/
structure TurnResult where
  message : String
  shouldEnd : Bool
  phase : InterviewPhase
  questionCount : Nat
deriving DecidableEq

/-- The candidate's answer as appended to the history by step 1 of
`processUserResponse`. -/
def answerMessage (msg : String) (now : Nat) : ConversationMessage :=
  { type := .answer, sender := .user, content := msg, timestamp := now }

/-- An agent question as appended to the history by step 5 of
`processUserResponse`. -/
def questionMessage (content : String) (now : Nat) : ConversationMessage :=
  { type := .question, sender := .agent, content := content, timestamp := now }

/-- State after step 1 of `processUserResponse`: the candidate's answer is
pushed onto the history. -/
def pushedState (s : InterviewState) (msg : String) (now : Nat) : InterviewState :=
  { s with history := s.history ++ [answerMessage msg now] }

/-- Step 2 of `processUserResponse`: the analysis in effect for the turn,
through the workflow's `catch` when the analyzer agent throws. -/
def turnAnalysis (s1 : InterviewState) (msg : String) (o : ModelOracle) : AnalyzerResponse :=
  if o.analyzerThrows then workflowDefaultAnalysis msg
  else runAnalyzerAgent s1 msg o.analyzerResult

/-- Step 3 of `processUserResponse`: the decision in effect for the turn,
through the workflow's `catch` when the orchestrator agent throws. -/
def turnDecision (updatedState : InterviewState) (analysis : AnalyzerResponse)
    (o : ModelOracle) : OrchestratorResponse :=
  if o.orchestratorThrows then workflowFallbackDecision updatedState.questionCount
  else runOrchestratorAgent updatedState analysis o.orchestratorResult

/-- The source's branch test in step 4 of `processUserResponse`:
`orchestratorDecision.nextAgent === 'feedback' || orchestratorDecision.shouldEnd`. -/
def turnEndCondition (s : InterviewState) (msg : String) (o : ModelOracle) : Bool :=
  let s1 := pushedState s msg o.now
  let analysis := turnAnalysis s1 msg o
  let updatedState := updateAnalytics s1 analysis
  let decision := turnDecision updatedState analysis o
  decision.nextAgent == NextAgent.feedback || decision.shouldEnd

/-- The fixed closing message handed back (and not appended to the history)
on the turn that ends the interview. -/
def closingMessage : String :=
  "Thank you so much for your time today! I have all the information I need. You can now view your detailed feedback."

/-- The fixed fallback question of the workflow's `catch` block when the
interviewer agent throws. -/
def workflowFallbackQuestionText : String := "Tell me more about your experience with that."

/-- Phase as recomputed from the post-increment question count by step 5 of
`processUserResponse`. -/
def phaseOf (questionCount : Nat) : InterviewPhase :=
  if questionCount ≤ 2 then .opening
  else if questionCount ≤ 6 then .main
  else .closing

/-- One full turn of the workflow coordinator (`processUserResponse`):
append the answer, analyze it, merge analytics, decide, then either end the
interview (fixed closing message, phase `ended`, `endTime` set, question
count untouched) or append the next question, increment the question count
and recompute the phase.  Returns the caller-visible result and the state
stored back into the session map. -/
def processUserResponse (s : InterviewState) (userMessage : String) (o : ModelOracle) :
    TurnResult × InterviewState :=
  let s1 := pushedState s userMessage o.now
  let analysis := turnAnalysis s1 userMessage o
  let updatedState := updateAnalytics s1 analysis
  let decision := turnDecision updatedState analysis o
  if turnEndCondition s userMessage o then
    ({ message := closingMessage, shouldEnd := true, phase := .ended,
       questionCount := updatedState.questionCount },
     { updatedState with status := .ended, endTime := some o.now })
  else
    let interviewerResponse :=
      if o.interviewerThrows then
        { message := workflowFallbackQuestionText, questionType := decision.nextIntent,
          metadata := none }
      else runInterviewerAgent updatedState decision o.interviewerResult
    let newState := { updatedState with
      history := updatedState.history ++ [questionMessage interviewerResponse.message o.now],
      questionCount := updatedState.questionCount + 1 }
    let finalState := { newState with status := phaseOf newState.questionCount }
    ({ message := interviewerResponse.message, shouldEnd := false, phase := finalState.status,
       questionCount := finalState.questionCount },
     finalState)

/-- Session creation (`initializeInterviewSession`): fresh empty analytics,
the opening question appended to the history, `questionCount = 1`,
phase `opening`.  Returns the state stored in the session map and the
opening message. -/
def initializeInterviewSession (sessionId role seniority interactionMode : String)
    (greetIdx now : Nat) : InterviewState × String :=
  let openingMessage := generateOpeningQuestion role seniority greetIdx
  ({ sessionId := sessionId
     role := role
     seniority := seniority
     history := [questionMessage openingMessage now]
     analytics := { isChatty := false, isTooShort := false, isOffTopic := none,
                    avgAnswerLength := 0, communicationScore := none, technicalScore := none,
                    behavioralScore := none, confidenceScore := none, engagementScore := none,
                    notes := [] }
     status := .opening
     interactionMode := interactionMode
     questionCount := 1
     startTime := now
     endTime := none },
   openingMessage)

/-- Early termination (`endInterviewSession`) on a stored session: force the
phase to `ended` and stamp `endTime`, without running the decision engine. -/
def endInterviewSession (s : InterviewState) (now : Nat) : InterviewState :=
  { s with status := .ended, endTime := some now }

/-- A whole sequence of turns, each feeding the stored state of the previous
one back into `processUserResponse`. -/
def runTurns (s : InterviewState) : List (String × ModelOracle) → InterviewState
  | [] => s
  | t :: rest => runTurns (processUserResponse s t.1 t.2).2 rest

/-- Parsed model output of the feedback agent's successful path; the
`|| []` defaults of the source on the four lists are `Option.getD []` here. -/
structure ModelFeedbackData where
  overallScore : ℚ
  scores : FeedbackScores
  strengths : Option (List String)
  improvements : Option (List String)
  highlights : Option (List String)
  redFlags : Option (List String)
  overallFeedback : String
  recommendation : Recommendation
deriving DecidableEq

/-- Interview duration in minutes as the feedback agent computes it:
`Math.round((endTime - startTime)/1000/60)`, with the current clock when
`endTime` is unset. -/
def computeDuration (state : InterviewState) (now : Nat) : ℤ :=
  match state.endTime with
  | some t => jsRound ((((t : ℚ) - (state.startTime : ℚ)) / 1000) / 60)
  | none => jsRound ((((now : ℚ) - (state.startTime : ℚ)) / 1000) / 60)

/-- The JavaScript truthiness test `x && x < 6`-style guard on a
possibly-undefined score: an absent value and a stored `0` both fail it. -/
def jsTruthy (x : Option ℚ) : Bool :=
  match x with
  | none => false
  | some v => !(v == 0)

/-- Fallback feedback (`createFallbackFeedback`): analytics-derived report
used when the feedback model call fails.  Every `analytics.x || 5` of the
source is `jsOrDefault x 5`; the truthiness guards on `communicationScore`
and `behavioralScore` are `jsTruthy`. -/
def createFallbackFeedback (state : InterviewState) (duration : ℤ) : FeedbackResponse :=
  let questionCount := state.questionCount
  let analytics := state.analytics
  let scores : List ℚ :=
    [jsOrDefault analytics.communicationScore 5,
     jsOrDefault analytics.technicalScore 5,
     jsOrDefault analytics.behavioralScore 5,
     jsOrDefault analytics.confidenceScore 5,
     jsOrDefault analytics.engagementScore 5]
  let avgScore : ℚ := scores.foldl (· + ·) 0 / (scores.length : ℚ)
  let overallScore : ℚ := (jsRound avgScore : ℚ)
  let recommendation : Recommendation :=
    if 8 ≤ overallScore then .STRONG_HIRE
    else if 6 ≤ overallScore then .HIRE
    else if 4 ≤ overallScore then .MAYBE
    else .NO_HIRE
  let strengths : List String :=
    (if 7 ≤ questionCount then ["Completed the full interview, showing commitment"] else [])
      ++ (if analytics.isTooShort then [] else ["Provided detailed responses"])
      ++ (if jsTruthy analytics.communicationScore
              && decide (7 ≤ (analytics.communicationScore.getD 0))
          then ["Demonstrated strong communication skills"] else [])
  let improvements : List String :=
    (if analytics.isChatty then ["Work on being more concise - aim for 1-2 minute responses"]
     else [])
      ++ (if analytics.isTooShort
          then ["Provide more detailed examples and elaborate on your experiences"] else [])
      ++ (if jsTruthy analytics.behavioralScore
              && decide ((analytics.behavioralScore.getD 0) < 6)
          then ["Use the STAR method (Situation, Task, Action, Result) for behavioral questions"]
          else [])
  { sessionId := state.sessionId
    role := state.role
    duration := toString duration ++ " minutes"
    questionCount := questionCount
    overallScore := overallScore
    scores := { communication := jsOrDefault analytics.communicationScore 5
                technicalKnowledge := jsOrDefault analytics.technicalScore 5
                problemSolving := jsOrDefault analytics.behavioralScore 5
                confidence := jsOrDefault analytics.confidenceScore 5
                relevance := jsOrDefault analytics.engagementScore 5 }
    strengths := if 0 < strengths.length then strengths else ["Participated in the interview"]
    improvements := if 0 < improvements.length then improvements
                    else ["Continue practicing interview skills"]
    highlights := analytics.notes.drop (analytics.notes.length - 2)
    redFlags := if questionCount < 5 then ["Interview ended early"] else []
    overallFeedback :=
      "You completed " ++ toString questionCount ++ " questions in " ++ toString duration
        ++ " minutes. "
        ++ (if 6 ≤ overallScore then "Overall, you showed good understanding and communication."
            else "There is room for improvement in your interview performance.")
        ++ " Focus on providing structured, detailed responses while staying concise. Practice using the STAR method for behavioral questions."
    recommendation := recommendation
    generatedAt := "" }

/-- The feedback agent (`runFeedbackAgent` of the feedback-agent source):
on a successful model call the parsed data is wrapped with the session's
identity fields and the `|| []` list defaults; on failure
`createFallbackFeedback` runs on the same duration. -/
def runFeedbackAgent (state : InterviewState) (now : Nat)
    (modelResult : Option ModelFeedbackData) : FeedbackResponse :=
  let duration := computeDuration state now
  match modelResult with
  | some feedbackData =>
      { sessionId := state.sessionId
        role := state.role
        duration := toString duration ++ " minutes"
        questionCount := state.questionCount
        overallScore := feedbackData.overallScore
        scores := feedbackData.scores
        strengths := feedbackData.strengths.getD []
        improvements := feedbackData.improvements.getD []
        highlights := feedbackData.highlights.getD []
        redFlags := feedbackData.redFlags.getD []
        overallFeedback := feedbackData.overallFeedback
        recommendation := feedbackData.recommendation
        generatedAt := "" }
  | none => createFallbackFeedback state duration

/-- Workflow-level feedback generation (`generateInterviewFeedback`): mark
the session ended if it is not already, then run the feedback agent. -/
def generateInterviewFeedback (state : InterviewState) (now : Nat)
    (modelResult : Option ModelFeedbackData) : FeedbackResponse :=
  let state' := if state.status == InterviewPhase.ended then state
                else { state with status := .ended, endTime := some now }
  runFeedbackAgent state' now modelResult

/-- Outcome of the feedback controller's `generateFeedback` endpoint. -/
inductive FeedbackOutcome where
  | missingSessionId
  | sessionNotFound
  | noResponses
  | ok (feedback : FeedbackResponse)
deriving DecidableEq

/-- The feedback controller (`generateFeedback` in the controller source):
reject a falsy session id, an unknown session, then a session with zero
candidate-authored entries (`NO_RESPONSES`); otherwise the feedback agent's
report (degraded through its fallback when the model call fails) is
returned.  `storedState` is the session store's lookup result. -/
def generateFeedback (sessionId : Option String) (storedState : Option InterviewState)
    (modelResult : Option ModelFeedbackData) (now : Nat) : FeedbackOutcome :=
  if sessionId.getD "" = "" then .missingSessionId
  else
    match storedState with
    | none => .sessionNotFound
    | some state =>
      if (userMessages state.history).length = 0 then .noResponses
      else .ok (generateInterviewFeedback state now modelResult)

/-! Concrete fixtures used by the counterexamples and witnesses below. -/

/-- Analytics of a freshly created session. -/
def freshAnalytics : InterviewAnalytics :=
  { isChatty := false, isTooShort := false, isOffTopic := none, avgAnswerLength := 0,
    communicationScore := none, technicalScore := none, behavioralScore := none,
    confidenceScore := none, engagementScore := none, notes := [] }

/-- Oracle on which every model call fails with unparseable output, so every
agent-level fallback runs. -/
def oracleAllFail : ModelOracle :=
  { analyzerThrows := false, analyzerResult := none, orchestratorThrows := false,
    orchestratorResult := none, interviewerThrows := false, interviewerResult := none,
    now := 3000 }

/-- A session that has reached the eighth question. -/
def stateAtCap : InterviewState :=
  { sessionId := "sess-cap", role := "backend", seniority := "mid",
    history := [questionMessage "Tell me about a recent project." 0],
    analytics := freshAnalytics, status := .closing, interactionMode := "chat",
    questionCount := 8, startTime := 0, endTime := none }

/-- A model-produced decision that keeps the interview going. -/
def continueDecision : OrchestratorResponse :=
  { nextAgent := .interviewer, nextIntent := .probe_answer,
    metadata := { difficulty := some .medium, focusAreas := none, provideHint := some false,
                  reasoning := some "model chose to continue" },
    shouldEnd := false }

/-- A model-produced neutral analysis. -/
def neutralAnalysis : AnalyzerResponse :=
  { isChatty := false, isTooShort := false, isOffTopic := false,
    communicationScore := 6, technicalScore := 6, behavioralScore := 6,
    confidenceScore := 6, engagementScore := 6, notes := "Reasonable answer",
    strengths := [], weaknesses := [], suggestions := [] }

/-- Oracle on which every model call succeeds and the orchestrator model
chooses to continue. -/
def modelContinueOracle : ModelOracle :=
  { analyzerThrows := false, analyzerResult := some neutralAnalysis,
    orchestratorThrows := false, orchestratorResult := some continueDecision,
    interviewerThrows := false, interviewerResult := some "And what happened next?",
    now := 10 }

/-- A fresh session created through `initializeInterviewSession`. -/
def sessionC2 : InterviewState :=
  (initializeInterviewSession "sess-c2" "backend" "mid" "chat" 0 1000).1

/-- The same session ended early through `endInterviewSession`. -/
def endedEarlySession : InterviewState := endInterviewSession sessionC2 2000

/-- A sixty-word answer of five-letter words: between the 50-word and
250-word bounds and between the 200- and 1500-character bounds. -/
def midLengthAnswer : String := String.intercalate " " (List.replicate 60 "hello")

/-- A model-produced analysis that flags the answer as off-topic. -/
def offTopicAnalysis : AnalyzerResponse :=
  { isChatty := false, isTooShort := false, isOffTopic := true,
    communicationScore := 6, technicalScore := 6, behavioralScore := 6,
    confidenceScore := 6, engagementScore := 6,
    notes := "Talked about something unrelated to the question",
    strengths := [], weaknesses := [], suggestions := [] }

/-- A session on its third question. -/
def c4State : InterviewState :=
  { sessionId := "sess-c4", role := "backend", seniority := "mid", history := [],
    analytics := freshAnalytics, status := .main, interactionMode := "chat",
    questionCount := 3, startTime := 0, endTime := none }

/-- Oracle on which the analyzer model succeeds with `offTopicAnalysis` but
the orchestrator agent throws, so the workflow-level fallback decision runs. -/
def offTopicThrowOracle : ModelOracle :=
  { analyzerThrows := false, analyzerResult := some offTopicAnalysis,
    orchestratorThrows := true, orchestratorResult := none,
    interviewerThrows := false, interviewerResult := none, now := 50 }

/-- The decision `processUserResponse` computes on that turn. -/
def c4Decision : OrchestratorResponse :=
  turnDecision
    (updateAnalytics (pushedState c4State "Let me tell you about my weekend instead." 50)
      offTopicAnalysis)
    offTopicAnalysis offTopicThrowOracle

/-- The steering decision of the orchestrator-level fallback on an off-topic
answer before the question cap. -/
def offTopicSteerDecision : OrchestratorResponse :=
  { nextAgent := .interviewer, nextIntent := .continue_conversation,
    metadata := { difficulty := some .medium, focusAreas := some ["Steer back to topic"],
                  provideHint := some false,
                  reasoning := some "Candidate went off-topic, steering back" },
    shouldEnd := false }

/-! The claims. -/

/-- C1, counterexample: the hard cap is not enforced on the model path.  On
a turn with `questionCount = 8`, a successfully parsed model decision with
`shouldEnd = false` passes through unmodified: the turn returns
`shouldEnd = false` and delivers a ninth question, against the claim that
the decision on such a turn always has `shouldEnd = true`. -/
theorem hardCap_model_passthrough_cex :
    stateAtCap.questionCount = 8 ∧
    (processUserResponse stateAtCap "An answer to the eighth question." modelContinueOracle).1.shouldEnd
      = false ∧
    (processUserResponse stateAtCap "An answer to the eighth question." modelContinueOracle).2.questionCount
      = 9 := by
  decide

/-- C1, amended: `shouldEnd = true` once `questionCount >= 8` holds on the
two fallback paths — the orchestrator agent's rule-based fallback and the
workflow-level default decision both set `shouldEnd` exactly to
`questionCount >= 8`, overriding all other signals; the model-success path
passes the model's `shouldEnd` through unenforced. -/
theorem hardCap_fallback_only (s : InterviewState) (a : AnalyzerResponse) (qc : Nat) :
    (createFallbackOrchestration s a).shouldEnd = decide (8 ≤ s.questionCount) ∧
    (workflowFallbackDecision qc).shouldEnd = decide (8 ≤ qc) := by
  constructor
  · unfold createFallbackOrchestration
    by_cases h : 8 ≤ s.questionCount
    · rw [if_pos h]; simp [h]
    · rw [if_neg h]
      cases hoff : a.isOffTopic <;> simp [hoff, h]
  · rfl

/-- C2, counterexample: `ended` is not terminal.  A session ended early (at
`questionCount = 1`) and then handed another candidate answer gets a new
agent question appended and its question count incremented, and its phase is
recomputed to `opening`. -/
theorem ended_resumes_cex :
    endedEarlySession.status = InterviewPhase.ended ∧
    endedEarlySession.questionCount = 1 ∧
    endedEarlySession.history.length = 1 ∧
    (processUserResponse endedEarlySession "I enjoy building backend systems." oracleAllFail).2.questionCount
      = 2 ∧
    (processUserResponse endedEarlySession "I enjoy building backend systems." oracleAllFail).2.history.length
      = 3 ∧
    (processUserResponse endedEarlySession "I enjoy building backend systems." oracleAllFail).2.status
      = InterviewPhase.opening := by
  decide

/-- C2, amended: `processUserResponse` never inspects the stored phase; a
turn on a session in any phase — `ended` included — behaves exactly as the
same turn on the same session in any other phase, so an early-ended session
is resumed (new question, incremented count, recomputed phase) rather than
rejected, and only the decision of the turn itself can re-end it. -/
theorem processUserResponse_ignores_status (s : InterviewState) (st : InterviewPhase)
    (msg : String) (o : ModelOracle) :
    processUserResponse { s with status := st } msg o = processUserResponse s msg o := rfl

set_option maxRecDepth 8192 in
/-- C3, counterexample: the analyzer fallback's scores are not the fixed
neutral value 5.  On a sixty-word answer (neither too short nor chatty) the
fallback sets every score to 6. -/
theorem fallbackAnalysis_neutral5_cex :
    jsWordCount midLengthAnswer = 60 ∧
    (createFallbackAnalysis midLengthAnswer c4State).isTooShort = false ∧
    (createFallbackAnalysis midLengthAnswer c4State).isChatty = false ∧
    (createFallbackAnalysis midLengthAnswer c4State).isOffTopic = false ∧
    (createFallbackAnalysis midLengthAnswer c4State).communicationScore = 6 := by
  decide

/-- C3, amended: the analyzer fallback sets
`isChatty = (wordCount > 250 or charCount > 1500)`,
`isTooShort = (wordCount < 50 or charCount < 200)`, `isOffTopic = false`,
and all five scores equal to one base score that is 4 when too short, else 5
when chatty, else 6 — not the fixed neutral 5 of the claim. -/
theorem fallbackAnalysis_spec (answer : String) (st : InterviewState) :
    (createFallbackAnalysis answer st).isChatty
      = (decide (250 < jsWordCount answer) || decide (1500 < answer.length)) ∧
    (createFallbackAnalysis answer st).isTooShort
      = (decide (jsWordCount answer < 50) || decide (answer.length < 200)) ∧
    (createFallbackAnalysis answer st).isOffTopic = false ∧
    (createFallbackAnalysis answer st).communicationScore
      = (if (createFallbackAnalysis answer st).isTooShort then (4 : ℚ)
         else if (createFallbackAnalysis answer st).isChatty then 5 else 6) ∧
    (createFallbackAnalysis answer st).technicalScore
      = (createFallbackAnalysis answer st).communicationScore ∧
    (createFallbackAnalysis answer st).behavioralScore
      = (createFallbackAnalysis answer st).communicationScore ∧
    (createFallbackAnalysis answer st).confidenceScore
      = (createFallbackAnalysis answer st).communicationScore ∧
    (createFallbackAnalysis answer st).engagementScore
      = (createFallbackAnalysis answer st).communicationScore :=
  ⟨rfl, rfl, rfl, rfl, rfl, rfl, rfl, rfl⟩

/-- C4, counterexample: the decision actually produced on an off-topic turn
does not always route to `continue_conversation`.  When the orchestrator
agent throws and the workflow-level fallback decides, an off-topic answer on
question 3 yields `ask_role_specific` with no `focusAreas` hint (the
fallback ignores the analysis entirely), though it still has
`shouldEnd = false`. -/
theorem offTopic_workflow_cex :
    offTopicAnalysis.isOffTopic = true ∧
    c4State.questionCount = 3 ∧
    c4Decision.shouldEnd = false ∧
    c4Decision.nextIntent = NextIntent.ask_role_specific ∧
    c4Decision.metadata.focusAreas = none := by
  decide

/-- C4, amended: on an off-topic answer before the cap the
orchestrator-level fallback (`createFallbackOrchestration`) never ends the
turn and routes to `continue_conversation` with the "Steer back to topic"
focus hint; the workflow-level fallback decision also never ends such a turn
(`shouldEnd = false` below the cap) but ignores the off-topic flag and
routes to `ask_role_specific` with no hint. -/
theorem offTopic_fallback_policy (s : InterviewState) (a : AnalyzerResponse)
    (hoff : a.isOffTopic = true) (hqc : s.questionCount < 8) :
    createFallbackOrchestration s a = offTopicSteerDecision ∧
    (workflowFallbackDecision s.questionCount).shouldEnd = false ∧
    (workflowFallbackDecision s.questionCount).nextIntent = NextIntent.ask_role_specific := by
  have h8 : ¬ (8 ≤ s.questionCount) := by omega
  refine ⟨?_, ?_, ?_⟩
  · unfold createFallbackOrchestration
    rw [if_neg h8, if_pos hoff]
    rfl
  · unfold workflowFallbackDecision
    simp [h8]
  · unfold workflowFallbackDecision
    simp [h8]

/-- C4, witness: the amended off-topic policy applied to the concrete
session on question 3 and the concrete off-topic analysis. -/
theorem offTopic_fallback_policy_witness :
    createFallbackOrchestration c4State offTopicAnalysis = offTopicSteerDecision ∧
    (workflowFallbackDecision c4State.questionCount).shouldEnd = false ∧
    (workflowFallbackDecision c4State.questionCount).nextIntent = NextIntent.ask_role_specific :=
  offTopic_fallback_policy c4State offTopicAnalysis rfl (by decide)

/-- A session whose history holds one delivered question and one candidate
answer. -/
def c5State : InterviewState :=
  { sessionId := "sess-c5", role := "sales", seniority := "junior",
    history := [questionMessage "Tell me about yourself." 0,
                answerMessage "I have two years of sales experience." 5],
    analytics := freshAnalytics, status := .opening, interactionMode := "chat",
    questionCount := 2, startTime := 0, endTime := none }

/-- C5: on an existing session with a non-empty session id, the feedback
endpoint fails with `NoResponses` exactly when the history holds zero
candidate-authored entries; with at least one candidate answer it returns
the feedback agent's report for every model outcome — the model's parsed
report or, when the call fails, the deterministic fallback — and never fails. -/
theorem feedback_noResponses_iff (sid : String) (hsid : sid ≠ "")
    (state : InterviewState) (mr : Option ModelFeedbackData) (now : Nat) :
    (generateFeedback (some sid) (some state) mr now = FeedbackOutcome.noResponses ↔
       (userMessages state.history).length = 0) ∧
    ((userMessages state.history).length ≠ 0 →
       generateFeedback (some sid) (some state) mr now
         = FeedbackOutcome.ok (generateInterviewFeedback state now mr)) := by
  unfold generateFeedback
  simp only [Option.getD_some]
  rw [if_neg hsid]
  by_cases h : (userMessages state.history).length = 0
  · rw [if_pos h]
    exact ⟨⟨fun _ => h, fun _ => rfl⟩, fun hne => absurd h hne⟩
  · rw [if_neg h]
    exact ⟨⟨fun hEq => FeedbackOutcome.noConfusion hEq, fun h0 => absurd h0 h⟩, fun _ => rfl⟩

/-- C5, witness: the characterization applied to a concrete session with one
candidate answer and a failing feedback model call. -/
theorem feedback_noResponses_iff_witness :
    (generateFeedback (some "sess-c5") (some c5State) none 0 = FeedbackOutcome.noResponses ↔
       (userMessages c5State.history).length = 0) ∧
    ((userMessages c5State.history).length ≠ 0 →
       generateFeedback (some "sess-c5") (some c5State) none 0
         = FeedbackOutcome.ok (generateInterviewFeedback c5State 0 none)) :=
  feedback_noResponses_iff "sess-c5" (by decide) c5State none 0

/-- C6: the phase after a delivered question is the pure function `phaseOf`
of the post-increment question count — `opening` on 1 and 2, `main` on 3..6,
`closing` from 7 up, never `ended`; the phase becomes `ended` exactly when
the turn's decision signals the end (`shouldEnd` or routing to feedback),
and then the question count is untouched. -/
theorem phase_pure_function (s : InterviewState) (msg : String) (o : ModelOracle) :
    (turnEndCondition s msg o = true →
       (processUserResponse s msg o).2.status = InterviewPhase.ended ∧
       (processUserResponse s msg o).1.phase = InterviewPhase.ended ∧
       (processUserResponse s msg o).2.questionCount = s.questionCount) ∧
    (turnEndCondition s msg o = false →
       (processUserResponse s msg o).2.questionCount = s.questionCount + 1 ∧
       (processUserResponse s msg o).2.status = phaseOf (s.questionCount + 1) ∧
       (processUserResponse s msg o).1.phase = phaseOf (s.questionCount + 1)) ∧
    (phaseOf 1 = InterviewPhase.opening ∧ phaseOf 2 = InterviewPhase.opening) ∧
    (∀ n, 3 ≤ n → n ≤ 6 → phaseOf n = InterviewPhase.main) ∧
    (∀ n, 7 ≤ n → phaseOf n = InterviewPhase.closing) ∧
    (∀ n, phaseOf n ≠ InterviewPhase.ended) := by
  refine ⟨?_, ?_, ⟨rfl, rfl⟩, ?_, ?_, ?_⟩
  · intro h
    simp only [processUserResponse]
    rw [if_pos h]
    exact ⟨rfl, rfl, rfl⟩
  · intro h
    simp only [processUserResponse]
    rw [if_neg (by rw [h]; exact Bool.false_ne_true)]
    exact ⟨rfl, rfl, rfl⟩
  · intro n h3 h6
    unfold phaseOf
    rw [if_neg (by omega), if_pos (by omega)]
  · intro n h7
    unfold phaseOf
    rw [if_neg (by omega), if_neg (by omega)]
  · intro n
    unfold phaseOf
    split
    · decide
    · split <;> decide

/-- Appending a candidate-authored entry extends the candidate filter. -/
lemma userMessages_append_user (h : List ConversationMessage) (m : ConversationMessage)
    (hm : m.sender = MessageFrom.user) :
    userMessages (h ++ [m]) = userMessages h ++ [m] := by
  simp [userMessages, List.filter_append, hm]

/-- Appending an agent-authored entry leaves the candidate filter unchanged. -/
lemma userMessages_append_agent (h : List ConversationMessage) (m : ConversationMessage)
    (hm : m.sender = MessageFrom.agent) :
    userMessages (h ++ [m]) = userMessages h := by
  simp [userMessages, List.filter_append, hm]

/-- Appending a candidate-authored entry adds its length to the candidate
length sum. -/
lemma userLenSumQ_append_user (h : List ConversationMessage) (m : ConversationMessage)
    (hm : m.sender = MessageFrom.user) :
    userLenSumQ (h ++ [m]) = userLenSumQ h + (m.content.length : ℚ) := by
  simp [userLenSumQ, userMessages_append_user h m hm]

/-- The invariant behind C7: the stored running average times the number of
candidate answers equals the total length of those answers, and the average
is zero while there is no answer. -/
def AvgInv (s : InterviewState) : Prop :=
  s.analytics.avgAnswerLength * (((userMessages s.history).length : ℚ)) = userLenSumQ s.history
  ∧ ((userMessages s.history).length = 0 → s.analytics.avgAnswerLength = 0)

/-- Core arithmetic of the incremental update
`newAvg = (oldAvg * (n-1) + latestLength) / n` at `n = c + 1`. -/
lemma avg_update_formula (avg sum L : ℚ) (c : Nat) (h1 : avg * (c : ℚ) = sum) :
    ((avg * ((((c + 1 : ℕ)) : ℚ) - 1) + L) / ((c + 1 : ℕ) : ℚ)) * (((c + 1 : ℕ)) : ℚ)
      = sum + L := by
  have hne : (((c + 1 : ℕ)) : ℚ) ≠ 0 := Nat.cast_ne_zero.mpr (Nat.succ_ne_zero c)
  rw [div_mul_cancel₀ _ hne]
  push_cast
  linear_combination h1

/-- Merging a turn's analysis right after the candidate's answer was pushed
preserves the running-average invariant. -/
lemma avgInv_updateAnalytics_push (s : InterviewState) (msg : String) (now : Nat)
    (a : AnalyzerResponse) (h : AvgInv s) :
    AvgInv (updateAnalytics (pushedState s msg now) a) := by
  obtain ⟨h1, _h2⟩ := h
  have hm : (answerMessage msg now).sender = MessageFrom.user := rfl
  have hfil : userMessages (s.history ++ [answerMessage msg now])
      = userMessages s.history ++ [answerMessage msg now] :=
    userMessages_append_user _ _ hm
  have hlast : (s.history ++ [answerMessage msg now]).getLast? = some (answerMessage msg now) :=
    List.getLast?_concat _
  constructor
  · show (updateAnalytics (pushedState s msg now) a).analytics.avgAnswerLength * _ = _
    simp only [updateAnalytics, pushedState]
    rw [hfil, hlast, userLenSumQ_append_user _ _ hm]
    simp only [List.length_append, List.length_cons, List.length_nil, Nat.zero_add]
    exact avg_update_formula _ _ _ _ h1
  · intro hc
    exfalso
    simp only [updateAnalytics, pushedState] at hc
    rw [hfil] at hc
    simp at hc

/-- The invariant only concerns `history` and `analytics`, so stamping the
phase and the end time keeps it. -/
lemma avgInv_set_status_endTime (u : InterviewState) (st : InterviewPhase) (t : Option Nat)
    (h : AvgInv u) : AvgInv { u with status := st, endTime := t } := h

/-- Appending an agent question (with any question count and phase update)
keeps the invariant. -/
lemma avgInv_append_question (u : InterviewState) (content : String) (now k : Nat)
    (st : InterviewPhase) (h : AvgInv u) :
    AvgInv { u with history := u.history ++ [questionMessage content now],
                    questionCount := k, status := st } := by
  obtain ⟨h1, h2⟩ := h
  have hfil : userMessages (u.history ++ [questionMessage content now]) = userMessages u.history :=
    userMessages_append_agent _ _ rfl
  constructor
  · show u.analytics.avgAnswerLength * _ = userLenSumQ (u.history ++ [questionMessage content now])
    rw [hfil]
    simpa [userLenSumQ, hfil] using h1
  · intro hc
    rw [hfil] at hc
    exact h2 hc

/-- One full turn of the coordinator preserves the running-average invariant. -/
lemma avgInv_step (s : InterviewState) (msg : String) (o : ModelOracle) (h : AvgInv s) :
    AvgInv (processUserResponse s msg o).2 := by
  have key : AvgInv (updateAnalytics (pushedState s msg o.now)
      (turnAnalysis (pushedState s msg o.now) msg o)) :=
    avgInv_updateAnalytics_push s msg o.now _ h
  by_cases hc : turnEndCondition s msg o
  · have hEq : (processUserResponse s msg o).2
        = { updateAnalytics (pushedState s msg o.now)
              (turnAnalysis (pushedState s msg o.now) msg o) with
            status := InterviewPhase.ended, endTime := some o.now } := by
      simp only [processUserResponse]
      rw [if_pos hc]
    rw [hEq]
    exact avgInv_set_status_endTime _ _ _ key
  · have hc' : turnEndCondition s msg o = false := by
      cases hcc : turnEndCondition s msg o
      · rfl
      · exact absurd hcc hc
    have hEq : (processUserResponse s msg o).2
        = { updateAnalytics (pushedState s msg o.now)
              (turnAnalysis (pushedState s msg o.now) msg o) with
            history := (updateAnalytics (pushedState s msg o.now)
                (turnAnalysis (pushedState s msg o.now) msg o)).history
              ++ [questionMessage
                    (if o.interviewerThrows then
                      { message := workflowFallbackQuestionText,
                        questionType := (turnDecision
                          (updateAnalytics (pushedState s msg o.now)
                            (turnAnalysis (pushedState s msg o.now) msg o))
                          (turnAnalysis (pushedState s msg o.now) msg o) o).nextIntent,
                        metadata := none }
                    else runInterviewerAgent
                      (updateAnalytics (pushedState s msg o.now)
                        (turnAnalysis (pushedState s msg o.now) msg o))
                      (turnDecision
                        (updateAnalytics (pushedState s msg o.now)
                          (turnAnalysis (pushedState s msg o.now) msg o))
                        (turnAnalysis (pushedState s msg o.now) msg o) o)
                      o.interviewerResult).message o.now],
            questionCount := (updateAnalytics (pushedState s msg o.now)
                (turnAnalysis (pushedState s msg o.now) msg o)).questionCount + 1,
            status := phaseOf ((updateAnalytics (pushedState s msg o.now)
                (turnAnalysis (pushedState s msg o.now) msg o)).questionCount + 1) } := by
      simp only [processUserResponse]
      rw [if_neg (by rw [hc']; exact Bool.false_ne_true)]
    rw [hEq]
    exact avgInv_append_question _ _ _ _ _ key

/-- `runTurns` preserves the running-average invariant. -/
lemma avgInv_runTurns : ∀ (turns : List (String × ModelOracle)) (s : InterviewState),
    AvgInv s → AvgInv (runTurns s turns)
  | [], _, h => h
  | t :: rest, s, h => avgInv_runTurns rest _ (avgInv_step s t.1 t.2 h)

/-- A freshly created session satisfies the running-average invariant. -/
lemma avgInv_init (sid role sen mode : String) (gi t0 : Nat) :
    AvgInv (initializeInterviewSession sid role sen mode gi t0).1 := by
  have h0 : userMessages (initializeInterviewSession sid role sen mode gi t0).1.history
      = [] := rfl
  constructor
  · rw [h0]
    show (0 : ℚ) * ((([] : List ConversationMessage).length : ℕ) : ℚ)
      = userLenSumQ (initializeInterviewSession sid role sen mode gi t0).1.history
    have hs : userLenSumQ (initializeInterviewSession sid role sen mode gi t0).1.history
        = 0 := by
      show (((userMessages (initializeInterviewSession sid role sen mode gi t0).1.history).map
        fun m => ((m.content.length : ℚ))).sum) = 0
      rw [h0]
      rfl
    rw [hs]
    norm_num
  · intro _
    rfl

/-- C7: after any number of processed turns from a fresh session, the stored
`avgAnswerLength` equals the arithmetic mean (in exact rational arithmetic;
quotient 0 when no answer exists yet) of the lengths of all candidate
answers seen so far, maintained by the incremental update
`newAvg = (oldAvg * (n-1) + latestLength) / n`. -/
theorem avgAnswerLength_true_mean (sid role sen mode : String) (gi t0 : Nat)
    (turns : List (String × ModelOracle)) :
    (runTurns (initializeInterviewSession sid role sen mode gi t0).1 turns).analytics.avgAnswerLength
      = userLenSumQ (runTurns (initializeInterviewSession sid role sen mode gi t0).1 turns).history
        / ((userMessages
              (runTurns (initializeInterviewSession sid role sen mode gi t0).1 turns).history).length
            : ℚ) := by
  obtain ⟨h1, h2⟩ := avgInv_runTurns turns _ (avgInv_init sid role sen mode gi t0)
  by_cases hc : (userMessages
      (runTurns (initializeInterviewSession sid role sen mode gi t0).1 turns).history).length = 0
  · rw [h2 hc, hc]
    have hsum : userLenSumQ
        (runTurns (initializeInterviewSession sid role sen mode gi t0).1 turns).history
        = 0 := by
      rw [← h1, hc]
      norm_num
    rw [hsum]
    norm_num
  · rw [eq_div_iff (Nat.cast_ne_zero.mpr hc)]
    exact h1

/-- A model-produced feedback report whose recommendation contradicts the
score mapping. -/
def badModelFeedback : ModelFeedbackData :=
  { overallScore := 9,
    scores := { communication := 9, technicalKnowledge := 9, problemSolving := 9,
                confidence := 9, relevance := 9 },
    strengths := some ["Excellent structured answers"], improvements := none,
    highlights := none, redFlags := none,
    overallFeedback := "Strong performance overall", recommendation := .NO_HIRE }

/-- C8, counterexample: the recommendation-score mapping is not enforced on
the model path.  A successfully parsed model report with overall score 9 and
recommendation `NO_HIRE` is returned unchanged, though the mapping demands
`STRONG_HIRE` at score 9. -/
theorem recommendation_model_passthrough_cex :
    (runFeedbackAgent c5State 0 (some badModelFeedback)).overallScore = 9 ∧
    (runFeedbackAgent c5State 0 (some badModelFeedback)).recommendation
      = Recommendation.NO_HIRE := by
  decide

/-- C8, amended: the deterministic fallback derives the recommendation from
its overall score by the mapping (at least 8 to `STRONG_HIRE`, at least 6 to
`HIRE`, at least 4 to `MAYBE`, else `NO_HIRE`); the model path passes the
model's own recommendation through without checking it against the score. -/
theorem recommendation_mapping_fallback (state : InterviewState) (d : ℤ)
    (md : ModelFeedbackData) (now : Nat) :
    (createFallbackFeedback state d).recommendation
      = (if 8 ≤ (createFallbackFeedback state d).overallScore then Recommendation.STRONG_HIRE
         else if 6 ≤ (createFallbackFeedback state d).overallScore then Recommendation.HIRE
         else if 4 ≤ (createFallbackFeedback state d).overallScore then Recommendation.MAYBE
         else Recommendation.NO_HIRE) ∧
    (runFeedbackAgent state now (some md)).recommendation = md.recommendation :=
  ⟨rfl, rfl⟩

/-- A session whose analytics store a legitimate score of 0 in every
category. -/
def zeroScoresState : InterviewState :=
  { sessionId := "sess-c9", role := "retail", seniority := "junior", history := [],
    analytics := { isChatty := false, isTooShort := false, isOffTopic := some false,
                   avgAnswerLength := 0, communicationScore := some 0,
                   technicalScore := some 0, behavioralScore := some 0,
                   confidenceScore := some 0, engagementScore := some 0,
                   notes := ["First note", "Second note"] },
    status := .ended, interactionMode := "chat", questionCount := 8,
    startTime := 0, endTime := some 0 }

/-- C9, counterexample: with all five stored scores equal to 0 the fallback
computes an overall score of 5, while the rounded mean of the stored scores
is 0 — the JavaScript `|| 5` turns a stored 0 into the default 5 before
averaging. -/
theorem fallback_overall_zero_scores_cex :
    zeroScoresState.analytics.communicationScore = some 0 ∧
    zeroScoresState.analytics.technicalScore = some 0 ∧
    zeroScoresState.analytics.behavioralScore = some 0 ∧
    zeroScoresState.analytics.confidenceScore = some 0 ∧
    zeroScoresState.analytics.engagementScore = some 0 ∧
    jsRound (((0 : ℚ) + 0 + 0 + 0 + 0) / 5) = 0 ∧
    (createFallbackFeedback zeroScoresState 5).overallScore = 5 := by
  refine ⟨rfl, rfl, rfl, rfl, rfl, ?_, ?_⟩
  · norm_num [jsRound]
  · simp only [createFallbackFeedback, zeroScoresState, jsOrDefault, List.foldl, List.length]
    norm_num [jsRound]

/-- C9, amended: the fallback's overall score is `Math.round` of the mean of
the five most-recent per-category scores each passed through the JavaScript
`|| 5` default, which replaces a missing score and also a stored score of 0
by 5 — not the plain mean of the stored scores. -/
theorem fallback_overall_jsDefaults (state : InterviewState) (d : ℤ) :
    (createFallbackFeedback state d).overallScore
      = ((jsRound ((jsOrDefault state.analytics.communicationScore 5
            + jsOrDefault state.analytics.technicalScore 5
            + jsOrDefault state.analytics.behavioralScore 5
            + jsOrDefault state.analytics.confidenceScore 5
            + jsOrDefault state.analytics.engagementScore 5) / 5) : ℤ) : ℚ) := by
  simp only [createFallbackFeedback, List.foldl, List.length]
  congr 2
  push_cast
  ring

/-- A fresh session used for the ending-turn counterexample. -/
def c10State : InterviewState :=
  (initializeInterviewSession "sess-c10" "frontend" "junior" "chat" 1 0).1

/-- A model-produced decision that ends the interview. -/
def endDecision : OrchestratorResponse :=
  { nextAgent := .feedback, nextIntent := .end_interview,
    metadata := { difficulty := none, focusAreas := none, provideHint := none,
                  reasoning := some "enough signal collected" },
    shouldEnd := true }

/-- Oracle on which the analyzer model succeeds and the orchestrator model
ends the interview. -/
def endOracle : ModelOracle :=
  { analyzerThrows := false, analyzerResult := some neutralAnalysis,
    orchestratorThrows := false, orchestratorResult := some endDecision,
    interviewerThrows := false, interviewerResult := none, now := 500 }

/-- C10, counterexample: on the ending turn more than the phase, the end
time and the appended answer changes — the analytics change too: the notes
list grows by the turn's analysis note. -/
theorem ending_turn_analytics_cex :
    c10State.analytics.notes = [] ∧
    (processUserResponse c10State "I built dashboards in React last year." endOracle).1.shouldEnd
      = true ∧
    (processUserResponse c10State "I built dashboards in React last year." endOracle).2.status
      = InterviewPhase.ended ∧
    (processUserResponse c10State "I built dashboards in React last year." endOracle).2.analytics.notes
      = ["Reasonable answer"] := by
  decide

/-- C10, amended: on the ending turn the caller gets the fixed constant
closing message with the pre-turn question count, and the stored state is
exactly the pre-turn state with the candidate answer appended to the
history, the turn's analysis merged into the analytics, the phase forced to
`ended` and `endTime` stamped — the closing message is not appended and the
question count is unchanged. -/
theorem ending_turn_frame (s : InterviewState) (msg : String) (o : ModelOracle)
    (h : turnEndCondition s msg o = true) :
    processUserResponse s msg o
      = ({ message := closingMessage, shouldEnd := true, phase := .ended,
           questionCount := s.questionCount },
         { updateAnalytics (pushedState s msg o.now)
             (turnAnalysis (pushedState s msg o.now) msg o) with
           status := InterviewPhase.ended, endTime := some o.now }) ∧
    (processUserResponse s msg o).2.history = s.history ++ [answerMessage msg o.now] ∧
    (processUserResponse s msg o).2.questionCount = s.questionCount := by
  refine ⟨?_, ?_, ?_⟩ <;>
    (simp only [processUserResponse]; rw [if_pos h])
  · rfl
  · rfl
  · rfl

/-- C10, witness: the ending-turn frame applied to a concrete session at the
question cap with every model call failing. -/
theorem ending_turn_frame_witness :
    processUserResponse stateAtCap "A final answer." oracleAllFail
      = ({ message := closingMessage, shouldEnd := true, phase := .ended,
           questionCount := stateAtCap.questionCount },
         { updateAnalytics (pushedState stateAtCap "A final answer." oracleAllFail.now)
             (turnAnalysis (pushedState stateAtCap "A final answer." oracleAllFail.now)
               "A final answer." oracleAllFail) with
           status := InterviewPhase.ended, endTime := some oracleAllFail.now }) ∧
    (processUserResponse stateAtCap "A final answer." oracleAllFail).2.history
      = stateAtCap.history ++ [answerMessage "A final answer." oracleAllFail.now] ∧
    (processUserResponse stateAtCap "A final answer." oracleAllFail).2.questionCount
      = stateAtCap.questionCount :=
  ending_turn_frame stateAtCap "A final answer." oracleAllFail (by decide)

end IPP
